import Mathlib

/-!
Verification of the comfyui-miner task lifecycle coordinator.

This file shallowly embeds the core of the repository:
  * `MinerService.send_miner_request`, `MinerService.handle_task`,
    `MinerService.start_service` (one loop tick) from `comfyui_miner.py`;
  * `WorkflowConfig.is_valid_task_type`, `WorkflowConfig.get_config`,
    `WorkflowConfig.get_output_config` from `utils/workflow_utils.py`;
  * `TaskProcessor._convert_output`, `TaskProcessor.handle_output` from
    `utils/task_utils.py`;
  * `ComfyUI.inject_args_into_workflow` from `comfyui_service/comfyui.py`.

External effects (HTTP requests, the ComfyUI backend, the S3 upload, file
system, clock) are modelled as oracles supplied in an environment record;
each Python control path maps to a branch of the corresponding Lean
function, and the reports the code would POST to `/miner_submit` are
collected in a list.
-/

set_option maxRecDepth 8000

namespace ComfyMiner

/-! ## Python string semantics helpers -/

/-- Lowercase a single ASCII character, as Python `str.lower` does on ASCII. -/
def charLower (c : Char) : Char :=
  if 65 ≤ c.toNat ∧ c.toNat ≤ 90 then Char.ofNat (c.toNat + 32) else c

/-- Python `str.lower` (restricted to ASCII, which is all the code compares). -/
def strLower (s : String) : String :=
  String.mk (s.data.map charLower)

/-- Does the character list `hay` start with `pat`? -/
def chListStarts : List Char → List Char → Bool
  | _, [] => true
  | [], _ :: _ => false
  | h :: hs, p :: ps => h == p && chListStarts hs ps

/-- Does `pat` occur as a contiguous sublist of `hay`? -/
def chContains : List Char → List Char → Bool
  | [], pat => pat.isEmpty
  | h :: t, pat => chListStarts (h :: t) pat || chContains t pat

/-- Python `pat in hay` substring test. -/
def strContains (hay pat : String) : Bool :=
  chContains hay.data pat.data

/-- Python `hay.endswith(pat)`. -/
def strEndsWith (hay pat : String) : Bool :=
  chListStarts hay.data.reverse pat.data.reverse

/-- One step bound by fuel: Python `str.replace` replaces every
non-overlapping occurrence of `pat`, scanning left to right. -/
def chReplaceFuel (pat rep : List Char) : Nat → List Char → List Char
  | 0, hay => hay
  | _ + 1, [] => []
  | n + 1, h :: t =>
    if pat ≠ [] ∧ chListStarts (h :: t) pat then
      rep ++ chReplaceFuel pat rep n (List.drop (pat.length - 1) t)
    else
      h :: chReplaceFuel pat rep n t

/-- Python `s.replace(pat, rep)` (all occurrences). -/
def pyReplace (s pat rep : String) : String :=
  String.mk (chReplaceFuel pat.data rep.data s.data.length s.data)

/-! ## Workflow registry (`utils/workflow_utils.py`)

`WorkflowConfig._config["workflow_configs"]` is a YAML-loaded dict from
workflow id to a per-workflow dict.  A key may in principle be bound to a
falsy value (YAML `null` / `{}`), which both `is_valid_task_type` and
`get_config` treat like an absent key (`if not config`), so the registry
maps each id to an `Option WorkflowEntry` (`none` = falsy entry). -/

structure OutputConfig where
  pfx : String
  fmt : String
  deriving DecidableEq

structure WorkflowEntry where
  task_type : String
  workflow : String
  endpoint : String
  output : Option OutputConfig
  deriving DecidableEq

abbrev Registry := List (String × Option WorkflowEntry)

/-- `WorkflowConfig.get_workflow_config`: raw dict lookup, with a falsy
stored value collapsing to `none` exactly as `if not config` would. -/
def get_workflow_config (reg : Registry) (workflow_id : String) : Option WorkflowEntry :=
  (reg.lookup workflow_id).join

/-- `WorkflowConfig.is_valid_task_type` (workflow_utils.py lines 103-109):
false when the workflow id does not resolve, else compares the declared
`task_type` with the requested one (which may be Python `None`). -/
def is_valid_task_type (reg : Registry) (workflow_id : String) (task_type : Option String) : Bool :=
  match get_workflow_config reg workflow_id with
  | none => false
  | some c => task_type == some c.task_type

structure TaskConfig where
  workflow : String
  endpoint : String
  deriving DecidableEq

/-- `WorkflowConfig.get_config` (workflow_utils.py lines 76-86). -/
def get_config (reg : Registry) (workflow_id : String) : Option TaskConfig :=
  match get_workflow_config reg workflow_id with
  | none => none
  | some c => some ⟨"example/" ++ c.workflow, "example/" ++ c.endpoint⟩

/-- `WorkflowConfig.get_output_config` (workflow_utils.py lines 89-94). -/
def get_output_config (reg : Registry) (workflow_id : String) : Option OutputConfig :=
  match get_workflow_config reg workflow_id with
  | none => none
  | some c => c.output

/-! ## Output conversion and upload (`utils/task_utils.py`)

`TaskProcessor._convert_output` (lines 48-71).  The PIL re-encode
(`Image.open` / `convert` / `save`) is an external effect; `encodeOk` is
its oracle: `false` means some step of the re-encode raised, in which case
both the inner `logger.catch` and the `except` clause fall back to
returning the original path. -/

def convert_output (output_path : String) (task_type : Option String) (encodeOk : Bool) : String :=
  if output_path = "" then output_path
  else if task_type == some "txt2vid" then output_path
  else if strEndsWith (strLower output_path) ".png" then
    if encodeOk then pyReplace output_path ".png" ".jpg" else output_path
  else output_path

/-- Python `if not upload_latency` truthiness on the optional float returned
by `_upload_to_s3` (`None` and `0.0` are falsy). -/
def pyTruthyLat : Option Nat → Bool
  | none => false
  | some n => n != 0

/-- `TaskProcessor.handle_output` (task_utils.py lines 113-150).
`uploadRes` is the oracle for `_upload_to_s3` (which never raises: it
returns the latency or `None`); `encodeOk` is the conversion oracle.
Returns the `(s3_key, upload_latency)` pair the code returns; every
exception inside the body is caught and mapped to `("", none)`, and the
branches below are the only normal returns. -/
def handle_output (reg : Registry) (task_id : String) (task_type : Option String)
    (output_path : String) (miner_address : String) (workflow_id : String)
    (encodeOk : Bool) (uploadRes : Option Nat) : String × Option Nat :=
  let _processed := convert_output output_path task_type encodeOk
  match get_output_config reg workflow_id with
  | none => ("", none)
  | some oc =>
    if task_type == some "txt2vid" then
      let s3_key := "test-video/" ++ oc.pfx ++ "-" ++ miner_address ++ "-" ++ task_id ++ "." ++ oc.fmt
      if pyTruthyLat uploadRes then (s3_key, uploadRes) else (s3_key, none)
    else if task_type == some "txt2img" then
      let s3_key := "flux-lora/" ++ oc.pfx ++ "-" ++ miner_address ++ "-" ++ task_id ++ "." ++ oc.fmt
      if pyTruthyLat uploadRes then (s3_key, uploadRes) else (s3_key, none)
    else ("", none)

/-! ## Task handler (`comfyui_miner.py`, `MinerService.handle_task`, lines 113-192)

The handler consumes a `TaskData` (the poll response body) and an
environment of oracle outcomes for its collaborators:

  * `extractOk` — truthiness of `TaskProcessor.extract_parameters`
    (`None` on parse failure and the empty dict are both falsy);
  * `execOut` — what `TaskProcessor.execute_workflow` does.  On success
    `ComfyUI.run_workflow` returns the output artifact path as a plain
    string (comfyui.py line 86); on failure it returns `{"error": msg}`;
    the injected `comfyui_instance` may also raise;
  * `infLat` — the measured inference latency;
  * `encodeOk`, `uploadRes` — the `handle_output` oracles above.

Each `submit_result` call the code makes is appended to `reports`
(`submit_result` itself catches every exception, so it never raises back
into the handler).  `branch` records which control path produced the
report; `execReached` / `uploadReached` record whether the execution stage
(`execute_workflow`) and the upload stage (`handle_output`) were entered.

Note the handler checks `"error" in output_data`: on a dict this is a key
test, but on the plain string returned by a successful run it is a
substring test, and the subsequent `output_data["error"]` then raises
`TypeError("string indices must be integers")`, which the top-level
`except` turns into a failure report carrying `str(e)`. -/

inductive OutputData where
  | errDict (msg : String)
  | pathStr (p : String)
  deriving DecidableEq

inductive ExecOutcome where
  | ret (od : OutputData)
  | raised (msg : String)
  deriving DecidableEq

structure TaskData where
  task_type : Option String
  workflow_id : Option String
  hasCred : Bool
  deriving DecidableEq

structure Env where
  reg : Registry
  extractOk : Bool
  execOut : ExecOutcome
  infLat : Nat
  encodeOk : Bool
  uploadRes : Option Nat
  deriving DecidableEq

structure Report where
  success : Bool
  task_id : String
  result : String
  inference_latency : Nat
  upload_latency : Nat
  msg : String
  deriving DecidableEq

inductive Branch where
  | missingWid | invalidType | invalidConfig | paramFail
  | execErrDict | execTypeErr | execRaised | missingCred | uploadFail | reported_ok
  deriving DecidableEq

structure TaskTrace where
  reports : List Report
  branch : Branch
  execReached : Bool
  uploadReached : Bool
  deriving DecidableEq

/-- `str(TypeError)` raised by indexing a string with the string "error". -/
def typeErrorMsg : String := "string indices must be integers"

/-- A failure report as built by the failure-path `submit_result` calls. -/
def failRep (task_id : String) (infLat : Nat) (msg : String) : Report :=
  ⟨false, task_id, "", infLat, 0, msg⟩

def handle_task (env : Env) (miner_address task_id : String) (td : TaskData) : TaskTrace :=
  if td.workflow_id.getD "" = "" then
    ⟨[failRep task_id 0 "Missing workflow_id"], .missingWid, false, false⟩
  else
    let wid := td.workflow_id.getD ""
    if is_valid_task_type env.reg wid td.task_type = false then
      ⟨[failRep task_id 0 "Invalid task type for workflow"], .invalidType, false, false⟩
    else
      match get_config env.reg wid with
      | none => ⟨[failRep task_id 0 "Invalid workflow configuration"], .invalidConfig, false, false⟩
      | some _cfg =>
        if env.extractOk = false then
          ⟨[failRep task_id 0 "Failed to extract parameters"], .paramFail, false, false⟩
        else
          match env.execOut with
          | .raised m => ⟨[failRep task_id 0 m], .execRaised, true, false⟩
          | .ret (.errDict m) => ⟨[failRep task_id 0 m], .execErrDict, true, false⟩
          | .ret (.pathStr p) =>
            if strContains p "error" then
              ⟨[failRep task_id 0 typeErrorMsg], .execTypeErr, true, false⟩
            else if td.hasCred = false then
              ⟨[failRep task_id env.infLat "Missing credentials"], .missingCred, true, false⟩
            else
              let out := handle_output env.reg task_id td.task_type p miner_address wid
                env.encodeOk env.uploadRes
              if pyTruthyLat out.2 = false then
                ⟨[failRep task_id env.infLat "Upload failed"], .uploadFail, true, true⟩
              else
                ⟨[⟨true, task_id, out.1, env.infLat, out.2.getD 0, ""⟩], .reported_ok, true, true⟩

/-! ## Poll request with retry (`MinerService.send_miner_request`, lines 67-111)

One HTTP attempt has four outcomes: status 200 with a JSON body, a non-200
status, a `requests.Timeout`/`requests.ConnectionError`, or an unexpected
exception.  The loop runs `attempt = 0, 1, 2` (`max_retries = 3`),
sleeping `base_wait * 2 ** attempt` seconds after each failed attempt of
the first two kinds; an unexpected exception returns `None` immediately;
after the loop, `None`. -/

structure PollData where
  task_id : Option String
  msg : Option String
  deriving DecidableEq

inductive AttemptOutcome where
  | ok (body : PollData)
  | httpErr
  | connErr
  | otherExc
  deriving DecidableEq

structure PollTrace where
  result : Option PollData
  attempts : Nat
  sleeps : List Nat
  deriving DecidableEq

def base_wait : Nat := 2

def sendLoop (outcomes : Nat → AttemptOutcome) : Nat → Nat → List Nat → PollTrace
  | 0, attempt, sleeps => ⟨none, attempt, sleeps⟩
  | remaining + 1, attempt, sleeps =>
    match outcomes attempt with
    | .ok body => ⟨some body, attempt + 1, sleeps⟩
    | .httpErr => sendLoop outcomes remaining (attempt + 1) (sleeps ++ [base_wait * 2 ^ attempt])
    | .connErr => sendLoop outcomes remaining (attempt + 1) (sleeps ++ [base_wait * 2 ^ attempt])
    | .otherExc => ⟨none, attempt + 1, sleeps⟩

def send_miner_request (outcomes : Nat → AttemptOutcome) : PollTrace :=
  sendLoop outcomes 3 0 []

/-! ## One tick of the service loop (`MinerService.start_service`, lines 245-270)

State carried across ticks: the `healthy` flag and the time of the last
health check.  Per tick: if `health_check_interval` seconds have elapsed,
`check_health()` re-probes the backend and (through its transition
handling) leaves `self.healthy` equal to the probe result.  If healthy,
`send_miner_request` is called and a `handle_task` thread is spawned when
the response is truthy, has a truthy `task_id`, and `"running"` does not
occur in its `msg`; the tick then sleeps `interval`.  If unhealthy, the
poll is skipped and the tick sleeps `interval * 2` and `continue`s (so the
trailing `interval` sleep is skipped). -/

structure LoopState where
  healthy : Bool
  lastHealthCheck : Nat
  healthCheckInterval : Nat
  deriving DecidableEq

structure TickEnv where
  now : Nat
  healthProbe : Bool
  pollResult : Option PollData
  deriving DecidableEq

structure TickTrace where
  healthyAfter : Bool
  polled : Bool
  spawned : Bool
  sleeps : List Nat
  deriving DecidableEq

def serviceTick (interval : Nat) (st : LoopState) (env : TickEnv) : TickTrace :=
  let healthy1 :=
    if st.healthCheckInterval ≤ env.now - st.lastHealthCheck then env.healthProbe else st.healthy
  if healthy1 then
    let doSpawn :=
      match env.pollResult with
      | none => false
      | some d => (d.task_id.getD "" != "") && !(strContains (d.msg.getD "") "running")
    ⟨healthy1, true, doSpawn, [interval]⟩
  else
    ⟨healthy1, false, false, [interval * 2]⟩

/-! ## Parameter injection (`ComfyUI.inject_args_into_workflow`, comfyui.py lines 92-129)

The endpoint file declares parameters; those with a `comfyui` target are
injected into the workflow graph at `(node_id, field, subfield)`.  The
`Endpoint` / parameter shape is read from `comfyui_service/configs.py`
usage sites in `inject_args_into_workflow` itself (the file is not in this
snapshot; the field accesses `param.name`, `param.comfyui`,
`comfyui.node_id/.field/.subfield/.preprocessing` pin it down).

The function re-reads the pristine workflow JSON from disk on every call,
so the input graph `w` is the same for repeated injections.  The one
stateful effect is `tempfile.mkdtemp(dir=self.temp_files_dir)` in the
`"folder"` preprocessing arm: each call materialises a fresh, previously
unused directory and injects its path.  We model the allocator with a
counter `st`: `tempDirName st` is the fresh directory created when the
allocator state is `st`, and distinct states give distinct paths (which is
exactly the guarantee `mkdtemp` provides while earlier directories still
exist). -/

inductive PValue where
  | s (v : String)
  | list (vs : List String)
  deriving DecidableEq

structure ComfyTarget where
  node_id : String
  field : String
  subfield : String
  preprocessing : Option String
  deriving DecidableEq

structure EndpointParam where
  name : String
  comfyui : Option ComfyTarget
  deriving DecidableEq

structure Endpoint where
  parameters : List EndpointParam
  deriving DecidableEq

abbrev Workflow := List ((String × String × String) × PValue)

/-- `workflow[node_id][field][subfield] = value`: replace the binding when
the slot exists, otherwise add it (the code requires the node and field to
exist; the subfield entry is created by the assignment). -/
def wfSet (w : Workflow) (k : String × String × String) (v : PValue) : Workflow :=
  if (w.lookup k).isSome then
    w.map (fun e => if e.1 == k then (k, v) else e)
  else
    w ++ [(k, v)]

/-- Fresh directory produced by `tempfile.mkdtemp` at allocator state `st`. -/
def tempDirName (st : Nat) : String := "/tmp/comfy" ++ toString st

/-- The `lora_name` special case (comfyui.py lines 108-109). -/
def loraFix (key : String) (v : PValue) : PValue :=
  match v with
  | .s str =>
    if key == "lora_name" && !(strEndsWith str ".safetensors") then
      .s (str ++ ".safetensors")
    else v
  | .list _ => v

/-- Preprocessing step (comfyui.py lines 111-124). `"csv"` joins with ","
(on a string value Python's `",".join` would iterate its characters);
`"folder"` allocates a fresh temporary directory, moves the files into it,
and injects the directory path. -/
def preprocessValue (pp : Option String) (v : PValue) (st : Nat) : PValue × Nat :=
  if pp == some "csv" then
    match v with
    | .list vs => (.s (String.intercalate "," vs), st)
    | .s sv => (.s (String.intercalate "," (sv.data.map Char.toString)), st)
  else if pp == some "folder" then
    (.s (tempDirName st), st + 1)
  else
    (v, st)

/-- One iteration of the `for key, comfyui in comfyui_map.items()` loop. -/
def injectOne (args : List (String × PValue)) : Workflow × Nat → EndpointParam → Workflow × Nat
  | (w, st), p =>
    match p.comfyui with
    | none => (w, st)
    | some c =>
      match args.lookup p.name with
      | none => (w, st)
      | some v =>
        let v1 := loraFix p.name v
        let vst := preprocessValue c.preprocessing v1 st
        (wfSet w (c.node_id, c.field, c.subfield) vst.1, vst.2)

/-- `ComfyUI.inject_args_into_workflow`: fold the injection loop over the
endpoint's parameters (parameter names are distinct in an endpoint file,
so the `comfyui_map` dict iteration order is the declaration order). -/
def inject_args_into_workflow (e : Endpoint) (w : Workflow)
    (args : List (String × PValue)) (st : Nat) : Workflow × Nat :=
  e.parameters.foldl (injectOne args) (w, st)

/-! ## Theorems -/

/-- C2: when every attempt fails with a non-200 status or a connection
error/timeout, `send_miner_request` makes exactly 3 attempts, sleeps
2s, 4s, 8s (`base_wait * 2 ^ attempt`, strictly increasing) after the
failed attempts, and returns `None`. -/
theorem send_miner_request_exhausts_retries (outcomes : Nat → AttemptOutcome)
    (h : ∀ i, i < 3 → outcomes i = AttemptOutcome.httpErr ∨ outcomes i = AttemptOutcome.connErr) :
    send_miner_request outcomes = ⟨none, 3, [2, 4, 8]⟩ := by
  have h0 := h 0 (by omega)
  have h1 := h 1 (by omega)
  have h2 := h 2 (by omega)
  rcases h0 with h0 | h0 <;> rcases h1 with h1 | h1 <;> rcases h2 with h2 | h2 <;>
    simp [send_miner_request, sendLoop, h0, h1, h2, base_wait]

/-- Witness for C2 at the constant connection-error outcome stream. -/
theorem send_miner_request_exhausts_retries_witness :
    send_miner_request (fun _ => AttemptOutcome.connErr) = ⟨none, 3, [2, 4, 8]⟩ :=
  send_miner_request_exhausts_retries _ (fun _ _ => Or.inr rfl)

/-- C6: in a tick of the service loop whose (freshly re-evaluated) health
flag is false, `send_miner_request` is not called, no handler is spawned,
and the tick sleeps the longer back-off `interval * 2` and continues. -/
theorem serviceTick_unhealthy_skips_poll (interval : Nat) (st : LoopState) (env : TickEnv)
    (h : (serviceTick interval st env).healthyAfter = false) :
    (serviceTick interval st env).polled = false ∧
    (serviceTick interval st env).spawned = false ∧
    (serviceTick interval st env).sleeps = [interval * 2] := by
  unfold serviceTick at h ⊢
  by_cases hh :
      (if st.healthCheckInterval ≤ env.now - st.lastHealthCheck then env.healthProbe
        else st.healthy) = true
  · simp [hh] at h
  · simp only [Bool.not_eq_true] at hh
    simp [hh]

/-- Witness for C6: unhealthy probe result at an elapsed health interval. -/
theorem serviceTick_unhealthy_skips_poll_witness :
    (serviceTick 2 ⟨true, 0, 10⟩ ⟨20, false, none⟩).polled = false ∧
    (serviceTick 2 ⟨true, 0, 10⟩ ⟨20, false, none⟩).spawned = false ∧
    (serviceTick 2 ⟨true, 0, 10⟩ ⟨20, false, none⟩).sleeps = [2 * 2] :=
  serviceTick_unhealthy_skips_poll 2 ⟨true, 0, 10⟩ ⟨20, false, none⟩ (by decide)

/-- C7: a handler thread is spawned in a tick exactly when the tick is
healthy, the poll response is present, its `task_id` is present and
non-empty, and `"running"` does not occur in its `msg`; in particular an
absent/empty task id or a `msg` containing `"running"` spawns nothing. -/
theorem serviceTick_spawn_condition (interval : Nat) (st : LoopState) (env : TickEnv) :
    (serviceTick interval st env).spawned = true ↔
      (serviceTick interval st env).healthyAfter = true ∧
      ∃ d, env.pollResult = some d ∧ d.task_id.getD "" ≠ "" ∧
        strContains (d.msg.getD "") "running" = false := by
  unfold serviceTick
  by_cases hh :
      (if st.healthCheckInterval ≤ env.now - st.lastHealthCheck then env.healthProbe
        else st.healthy) = true
  · cases hp : env.pollResult with
    | none => simp [hh, hp]
    | some d => simp [hh, hp, bne_iff_ne]
  · simp only [Bool.not_eq_true] at hh
    simp [hh]

/-- C8: `_convert_output` is the identity for txt2vid tasks, for paths not
ending in `.png` (per the code's case-insensitive check), and on re-encode
failure; for a `.png` path of a non-video task with a successful re-encode
it returns the path with `.png` replaced by `.jpg`.  Being a total
function, it never fails the task. -/
theorem convert_output_spec (path : String) (task_type : Option String) (encodeOk : Bool) :
    (task_type = some "txt2vid" → convert_output path task_type encodeOk = path) ∧
    (strEndsWith (strLower path) ".png" = false → convert_output path task_type encodeOk = path) ∧
    (encodeOk = false → convert_output path task_type encodeOk = path) ∧
    (strEndsWith (strLower path) ".png" = true → task_type ≠ some "txt2vid" → encodeOk = true →
      convert_output path task_type encodeOk = pyReplace path ".png" ".jpg") := by
  refine ⟨?_, ?_, ?_, ?_⟩
  · intro h
    by_cases hp : path = "" <;> simp [convert_output, hp, h]
  · intro h
    by_cases hp : path = "" <;>
      by_cases htv : task_type == some "txt2vid" <;>
        simp [convert_output, hp, htv, h]
  · intro h
    subst h
    by_cases hp : path = "" <;>
      by_cases htv : task_type == some "txt2vid" <;>
        by_cases hpng : strEndsWith (strLower path) ".png" <;>
          simp [convert_output, hp, htv, hpng]
  · intro hpng htv hok
    have hp : path ≠ "" := by
      intro e
      rw [e] at hpng
      exact absurd hpng (by decide)
    have htv2 : (task_type == some "txt2vid") = false := by
      simp [htv]
    simp [convert_output, hp, htv2, hpng, hok]

/-- Witness for C8 at a concrete png image path. -/
theorem convert_output_spec_witness :
    convert_output "img.png" (some "txt2img") true = pyReplace "img.png" ".png" ".jpg" ∧
    convert_output "vid.png" (some "txt2vid") true = "vid.png" ∧
    convert_output "img.png" (some "txt2img") false = "img.png" :=
  ⟨(convert_output_spec "img.png" (some "txt2img") true).2.2.2 (by decide) (by decide) rfl,
   (convert_output_spec "vid.png" (some "txt2vid") true).1 rfl,
   (convert_output_spec "img.png" (some "txt2img") false).2.2.1 rfl⟩

/-- Does injecting `p` into the graph consume a fresh temporary directory?
True exactly when `p` has a comfyui target with `"folder"` preprocessing
and an argument value is supplied for it. -/
def usesFolder (args : List (String × PValue)) (p : EndpointParam) : Bool :=
  match p.comfyui with
  | none => false
  | some c => (args.lookup p.name).isSome && c.preprocessing == some "folder"

theorem injectOne_no_folder (args : List (String × PValue)) (p : EndpointParam)
    (hp : usesFolder args p = false) (w : Workflow) (st st' : Nat) :
    (injectOne args (w, st) p).1 = (injectOne args (w, st') p).1 ∧
    (injectOne args (w, st) p).2 = st ∧ (injectOne args (w, st') p).2 = st' := by
  unfold usesFolder at hp
  unfold injectOne
  cases hc : p.comfyui with
  | none => simp only [hc]; simp
  | some c =>
    rw [hc] at hp
    simp only [hc]
    cases ha : args.lookup p.name with
    | none => simp only [ha]; simp
    | some v =>
      rw [ha] at hp
      simp only [ha]
      simp only [Option.isSome_some, Bool.true_and] at hp
      unfold preprocessValue
      by_cases hcsv : c.preprocessing = some "csv"
      · cases hl : loraFix p.name v <;> simp [hcsv, hl]
      · have hfold : ¬ c.preprocessing = some "folder" := by
          intro e
          rw [e] at hp
          simp at hp
        simp [hcsv, hfold]

theorem foldInject_state_indep (args : List (String × PValue)) :
    ∀ l : List EndpointParam, l.all (fun p => !usesFolder args p) = true →
      ∀ (w : Workflow) (st st' : Nat),
        (l.foldl (injectOne args) (w, st)).1 = (l.foldl (injectOne args) (w, st')).1 := by
  intro l
  induction l with
  | nil => intro _ w st st'; rfl
  | cons p t ih =>
    intro h w st st'
    rw [List.all_cons, Bool.and_eq_true] at h
    obtain ⟨hp, ht⟩ := h
    rw [Bool.not_eq_true'] at hp
    obtain ⟨h1, h2, h3⟩ := injectOne_no_folder args p hp w st st'
    have hI : injectOne args (w, st) p = ((injectOne args (w, st) p).1, st) :=
      Prod.ext rfl h2
    have hI' : injectOne args (w, st') p = ((injectOne args (w, st') p).1, st') :=
      Prod.ext rfl h3
    rw [List.foldl_cons, List.foldl_cons, hI, hI', h1]
    exact ih ht _ st st'

/-- Endpoint with a single `"folder"`-preprocessed parameter, as in the
video workflows that materialise frame lists into a directory. -/
def epC3 : Endpoint := ⟨[⟨"frames", some ⟨"12", "inputs", "directory", some "folder"⟩⟩]⟩

def wfC3 : Workflow := [(("12", "inputs", "directory"), PValue.s "")]

def argsC3 : List (String × PValue) := [("frames", PValue.list ["a.png", "b.png"])]

/-- C3 counterexample: with a `"folder"`-preprocessed parameter, injecting
the same parameter set into the same pristine descriptor twice in one task
(the second call running in the allocator state the first call left) yields
two different graphs — each call injects a fresh temporary-directory path —
so injection is not a pure function of (descriptor, parameters). -/
theorem inject_args_not_pure_counterexample :
    (inject_args_into_workflow epC3 wfC3 argsC3 0).1 ≠
      (inject_args_into_workflow epC3 wfC3 argsC3
        (inject_args_into_workflow epC3 wfC3 argsC3 0).2).1 := by
  decide

/-- C3 amended: for parameter sets in which no injected parameter uses
`"folder"` preprocessing, injection does not depend on the
temporary-directory allocator state, so injecting the same parameters into
the same descriptor twice (the workflow file being re-read pristine on
every call) yields identical resulting graphs, with no accumulation of
prior injections. -/
theorem inject_args_pure_without_folder (e : Endpoint) (w : Workflow)
    (args : List (String × PValue))
    (h : e.parameters.all (fun p => !usesFolder args p) = true) (st st' : Nat) :
    (inject_args_into_workflow e w args st).1 = (inject_args_into_workflow e w args st').1 ∧
    (inject_args_into_workflow e w args st).1 =
      (inject_args_into_workflow e w args
        (inject_args_into_workflow e w args st).2).1 := by
  exact ⟨foldInject_state_indep args e.parameters h w st st',
    foldInject_state_indep args e.parameters h w st _⟩

def epC3w : Endpoint :=
  ⟨[⟨"prompt", some ⟨"6", "inputs", "text", none⟩⟩,
    ⟨"tags", some ⟨"7", "inputs", "text", some "csv"⟩⟩]⟩

def wfC3w : Workflow :=
  [(("6", "inputs", "text"), PValue.s ""), (("7", "inputs", "text"), PValue.s "")]

def argsC3w : List (String × PValue) :=
  [("prompt", PValue.s "a cat"), ("tags", PValue.list ["x", "y"])]

/-- Witness for the amended C3 at a scalar plus csv parameter set. -/
theorem inject_args_pure_without_folder_witness :
    (inject_args_into_workflow epC3w wfC3w argsC3w 0).1 =
      (inject_args_into_workflow epC3w wfC3w argsC3w 7).1 :=
  (inject_args_pure_without_folder epC3w wfC3w argsC3w (by decide) 0 7).1

/-- Registry fixture for the upload-key claims: a video workflow "1" and an
image workflow "2" with their output configs. -/
def regC5 : Registry :=
  [("1", some ⟨"txt2vid", "w.json", "e.yml", some ⟨"hunyuan", "mp4"⟩⟩),
   ("2", some ⟨"txt2img", "w2.json", "e2.yml", some ⟨"flux", "jpg"⟩⟩)]

/-- C5 counterexample: the code prepends the fixed folder `test-video/` to
the video key and builds the image key as
`flux-lora/{prefix}-{miner}-{taskId}.{format}`, so at a concrete input the
video key is not `{prefix}-{miner}-{taskId}.{extension}` and the image key
is not `{taskId}.jpg` as the claim states. -/
theorem handle_output_key_counterexample :
    (handle_output regC5 "t1" (some "txt2vid") "o.mp4" "m" "1" true (some 1)).1 =
      "test-video/hunyuan-m-t1.mp4" ∧
    (handle_output regC5 "t1" (some "txt2vid") "o.mp4" "m" "1" true (some 1)).1 ≠
      "hunyuan-m-t1.mp4" ∧
    (handle_output regC5 "t1" (some "txt2img") "o.png" "m" "2" true (some 1)).1 =
      "flux-lora/flux-m-t1.jpg" ∧
    (handle_output regC5 "t1" (some "txt2img") "o.png" "m" "2" true (some 1)).1 ≠
      "t1.jpg" := by
  refine ⟨rfl, ?_, rfl, ?_⟩ <;> decide

/-- C5 amended: the destination key is
`test-video/{prefix}-{minerIdentity}-{taskId}.{format}` for txt2vid tasks
and `flux-lora/{prefix}-{minerIdentity}-{taskId}.{format}` for txt2img
tasks, with prefix and format taken from the workflow's output config. -/
theorem handle_output_key_spec (reg : Registry) (task_id miner wid output_path : String)
    (oc : OutputConfig) (encodeOk : Bool) (uploadRes : Option Nat)
    (h : get_output_config reg wid = some oc) :
    (handle_output reg task_id (some "txt2vid") output_path miner wid encodeOk uploadRes).1 =
      "test-video/" ++ oc.pfx ++ "-" ++ miner ++ "-" ++ task_id ++ "." ++ oc.fmt ∧
    (handle_output reg task_id (some "txt2img") output_path miner wid encodeOk uploadRes).1 =
      "flux-lora/" ++ oc.pfx ++ "-" ++ miner ++ "-" ++ task_id ++ "." ++ oc.fmt := by
  have himg : (some "txt2img" == some "txt2vid") = false := by decide
  unfold handle_output
  rw [h]
  constructor <;> simp only [himg, beq_self_eq_true, Bool.false_eq_true, if_true, if_false] <;>
    split <;> rfl

/-- Witness for the amended C5 at the concrete registry fixture. -/
theorem handle_output_key_spec_witness :
    (handle_output regC5 "t9" (some "txt2vid") "o.mp4" "m9" "1" true (some 3)).1 =
      "test-video/" ++ "hunyuan" ++ "-" ++ "m9" ++ "-" ++ "t9" ++ "." ++ "mp4" :=
  (handle_output_key_spec regC5 "t9" "m9" "1" "o.mp4" ⟨"hunyuan", "mp4"⟩ true (some 3)
    (by decide)).1

/-- C1 amended: every `handle_task` invocation makes exactly one
`submit_result` call, on every control path (validation failures,
execution errors, missing credentials, upload failure, exceptions raised
inside the handler, success); every path other than the success path
reports `success = false`; and the message is non-empty on every failing
path except an execution failure or a handler exception, whose message is
the propagated error string, which the code does not check for
non-emptiness. -/
theorem handle_task_exactly_one_report (env : Env) (miner task_id : String) (td : TaskData) :
    (handle_task env miner task_id td).reports.length = 1 ∧
    ((handle_task env miner task_id td).branch ≠ Branch.reported_ok →
      ∀ r ∈ (handle_task env miner task_id td).reports, r.success = false) ∧
    ((handle_task env miner task_id td).branch ∉
        [Branch.execErrDict, Branch.execRaised, Branch.reported_ok] →
      ∀ r ∈ (handle_task env miner task_id td).reports, r.msg ≠ "") := by
  unfold handle_task
  dsimp only
  repeat' split
  all_goals
    refine ⟨rfl, fun hbr r hr => ?_, fun hbr2 r hr => ?_⟩ <;>
      simp only [List.mem_singleton] at hr <;> subst hr <;>
      (try dsimp only [failRep]) <;>
      first
        | rfl
        | decide
        | exact absurd rfl hbr
        | simp_all [failRep, typeErrorMsg]

def envC1 : Env := ⟨regC5, true, .ret (.errDict ""), 5, true, some 1⟩

def tdC1 : TaskData := ⟨some "txt2vid", some "1", true⟩

/-- C1 counterexample: when the backend's execution error string is empty
(`run_workflow` propagates `str(e)` / `prepare_args` messages verbatim),
the execution stage — a stage before upload — fails and the single report
carries `success = false` with an empty message, contradicting the claim
that every pre-upload failure reports a non-empty message. -/
theorem handle_task_empty_message_counterexample :
    (handle_task envC1 "m" "t1" tdC1).branch = Branch.execErrDict ∧
    (handle_task envC1 "m" "t1" tdC1).uploadReached = false ∧
    (handle_task envC1 "m" "t1" tdC1).reports = [failRep "t1" 0 ""] := by
  decide

/-- Witness for the amended C1 at a concrete successful environment. -/
theorem handle_task_exactly_one_report_witness :
    (handle_task ⟨regC5, true, .ret (.pathStr "out.mp4"), 5, true, some 2⟩ "m" "t2"
      ⟨some "txt2vid", some "1", true⟩).reports.length = 1 :=
  (handle_task_exactly_one_report ⟨regC5, true, .ret (.pathStr "out.mp4"), 5, true, some 2⟩
    "m" "t2" ⟨some "txt2vid", some "1", true⟩).1

/-- C4: whenever the requested task type differs from the declared task
type of the workflow the id resolves to, `is_valid_task_type` returns
false and `handle_task` submits exactly the failure report with message
"Invalid task type for workflow", reaching neither execution nor upload. -/
theorem task_type_mismatch_rejected (env : Env) (miner task_id : String) (td : TaskData)
    (wid : String) (entry : WorkflowEntry)
    (hwid : td.workflow_id = some wid) (hne : wid ≠ "")
    (hreg : get_workflow_config env.reg wid = some entry)
    (hmm : td.task_type ≠ some entry.task_type) :
    is_valid_task_type env.reg wid td.task_type = false ∧
    (handle_task env miner task_id td).reports =
      [failRep task_id 0 "Invalid task type for workflow"] ∧
    (handle_task env miner task_id td).branch = Branch.invalidType ∧
    (handle_task env miner task_id td).execReached = false ∧
    (handle_task env miner task_id td).uploadReached = false := by
  have hvalid : is_valid_task_type env.reg wid td.task_type = false := by
    unfold is_valid_task_type
    rw [hreg]
    simp [hmm]
  refine ⟨hvalid, ?_⟩
  unfold handle_task
  rw [hwid]
  simp only [Option.getD_some]
  simp [hne, hvalid]

/-- Witness for C4: a txt2img request against the txt2vid workflow "1". -/
theorem task_type_mismatch_rejected_witness :
    is_valid_task_type regC5 "1" (some "txt2img") = false ∧
    (handle_task ⟨regC5, true, .ret (.pathStr "o.mp4"), 1, true, some 1⟩ "m" "t3"
      ⟨some "txt2img", some "1", true⟩).reports =
      [failRep "t3" 0 "Invalid task type for workflow"] ∧
    (handle_task ⟨regC5, true, .ret (.pathStr "o.mp4"), 1, true, some 1⟩ "m" "t3"
      ⟨some "txt2img", some "1", true⟩).branch = Branch.invalidType ∧
    (handle_task ⟨regC5, true, .ret (.pathStr "o.mp4"), 1, true, some 1⟩ "m" "t3"
      ⟨some "txt2img", some "1", true⟩).execReached = false ∧
    (handle_task ⟨regC5, true, .ret (.pathStr "o.mp4"), 1, true, some 1⟩ "m" "t3"
      ⟨some "txt2img", some "1", true⟩).uploadReached = false :=
  task_type_mismatch_rejected ⟨regC5, true, .ret (.pathStr "o.mp4"), 1, true, some 1⟩ "m" "t3"
    ⟨some "txt2img", some "1", true⟩ "1" ⟨"txt2vid", "w.json", "e.yml", some ⟨"hunyuan", "mp4"⟩⟩
    rfl (by decide) (by decide) (by decide)

/-- C9: when execution succeeds and `run_workflow` returns the artifact
path as a plain string that contains the substring "error", the handler's
`"error" in output_data` membership test is a substring test, so
`handle_task` submits a failure report and never a success report (the
string indexing `output_data["error"]` raises, and the handler converts
that into a failure report). -/
theorem error_substring_path_never_success (env : Env) (miner task_id : String) (td : TaskData)
    (p : String) (hexec : env.execOut = ExecOutcome.ret (OutputData.pathStr p))
    (herr : strContains p "error" = true) :
    (handle_task env miner task_id td).branch ≠ Branch.reported_ok ∧
    ∀ r ∈ (handle_task env miner task_id td).reports, r.success = false := by
  unfold handle_task
  rw [hexec]
  dsimp only
  repeat' split
  all_goals
    refine ⟨?_, fun r hr => ?_⟩ <;>
      (try simp only [List.mem_singleton] at hr) <;>
      (try subst hr) <;>
      (try dsimp only [failRep]) <;>
      first
        | rfl
        | decide
        | simp_all [failRep]

/-- Witness for C9: an artifact path containing "error". -/
theorem error_substring_path_never_success_witness :
    (handle_task ⟨regC5, true, .ret (.pathStr "comfy_error_0001.mp4"), 5, true, some 2⟩
      "m" "t4" ⟨some "txt2vid", some "1", true⟩).branch ≠ Branch.reported_ok :=
  (error_substring_path_never_success
    ⟨regC5, true, .ret (.pathStr "comfy_error_0001.mp4"), 5, true, some 2⟩
    "m" "t4" ⟨some "txt2vid", some "1", true⟩ "comfy_error_0001.mp4" rfl (by decide)).1

/-- C10: if `is_valid_task_type` accepts, then `get_config` resolves, so
the "Invalid workflow configuration" branch of `handle_task` is
unreachable; and an unknown (but non-empty) workflow id is always rejected
with "Invalid task type for workflow", because type validation precedes
config lookup. -/
theorem valid_type_implies_config (env : Env) (miner task_id : String) (td : TaskData)
    (wid : String) (tt : Option String) :
    (is_valid_task_type env.reg wid tt = true → (get_config env.reg wid).isSome = true) ∧
    (handle_task env miner task_id td).branch ≠ Branch.invalidConfig ∧
    (td.workflow_id = some wid → wid ≠ "" → get_workflow_config env.reg wid = none →
      (handle_task env miner task_id td).branch = Branch.invalidType ∧
      (handle_task env miner task_id td).reports =
        [failRep task_id 0 "Invalid task type for workflow"]) := by
  refine ⟨?_, ?_, ?_⟩
  · intro hv
    unfold is_valid_task_type at hv
    unfold get_config
    cases hW : get_workflow_config env.reg wid with
    | none => rw [hW] at hv; simp at hv
    | some c => simp
  · cases hW : get_workflow_config env.reg (td.workflow_id.getD "") with
    | none =>
      have hvalid : is_valid_task_type env.reg (td.workflow_id.getD "") td.task_type = false := by
        unfold is_valid_task_type
        rw [hW]
      unfold handle_task
      dsimp only
      by_cases h1 : td.workflow_id.getD "" = ""
      · simp [h1]
      · simp [h1, hvalid]
    | some c =>
      by_cases h1 : td.workflow_id.getD "" = ""
      · unfold handle_task
        simp [h1]
      · by_cases h2 : is_valid_task_type env.reg (td.workflow_id.getD "") td.task_type = false
        · unfold handle_task
          simp [h1, h2]
        · have hconf : get_config env.reg (td.workflow_id.getD "") =
              some ⟨"example/" ++ c.workflow, "example/" ++ c.endpoint⟩ := by
            unfold get_config
            rw [hW]
          unfold handle_task
          dsimp only
          rw [if_neg h1, if_neg h2, hconf]
          dsimp only
          repeat' split
          all_goals simp
  · intro hwid hne hnone
    have hvalid : is_valid_task_type env.reg wid td.task_type = false := by
      unfold is_valid_task_type
      rw [hnone]
    unfold handle_task
    rw [hwid]
    simp only [Option.getD_some]
    simp [hne, hvalid]

/-- Witness for C10 at a registry without workflow id "9". -/
theorem valid_type_implies_config_witness :
    (handle_task ⟨regC5, true, .ret (.pathStr "o.mp4"), 1, true, some 1⟩ "m" "t5"
      ⟨some "txt2img", some "9", true⟩).branch = Branch.invalidType ∧
    (handle_task ⟨regC5, true, .ret (.pathStr "o.mp4"), 1, true, some 1⟩ "m" "t5"
      ⟨some "txt2img", some "9", true⟩).reports =
      [failRep "t5" 0 "Invalid task type for workflow"] :=
  (valid_type_implies_config ⟨regC5, true, .ret (.pathStr "o.mp4"), 1, true, some 1⟩ "m" "t5"
    ⟨some "txt2img", some "9", true⟩ "9" (some "txt2img")).2.2 rfl (by decide) (by decide)

end ComfyMiner
